import Mathlib

/-!
Shallow embedding of the Kinvey JS SDK user-session core
(`src/user.js`, `src/stores/userstore.js`): the active-session lifecycle
(`login`, `logout`, `signup`, `connect`, `disconnect`, `me`, `isActive`)
over an explicit client context, with the network transport modelled as
an oracle from requests to responses and every operation returning the
list of transport calls it issued.
-/

namespace KinveySdk

/-- JavaScript truthiness of an optional string attribute: an absent
(`undefined`) attribute and the empty string are falsy, everything else
is truthy. -/
def truthy : Option String → Bool
  | none => false
  | some s => s ≠ ""

/-- The `_socialIdentity` map: identity-provider name to token payload.
A token payload is modelled as a string, with `""` standing for a falsy
payload. -/
abbrev SocialMap := List (String × String)

/-- JS object property assignment `socialIdentity[identity] = token`:
replace the value when the key is present, otherwise append the pair. -/
def siInsert : SocialMap → String → String → SocialMap
  | [], k, v => [(k, v)]
  | (k', v') :: rest, k, v =>
      if k' = k then (k, v) :: rest else (k', v') :: siInsert rest k v

/-- JS `delete socialIdentity[identity]`: remove the entry for that key. -/
def siErase (m : SocialMap) (k : String) : SocialMap :=
  m.filter (fun p => p.1 ≠ k)

/-- `UserStore.save` identity scoping: when the update is scoped to
identity `i` (the `options._identity` flag), delete every entry whose
token is truthy and whose provider differs from `i`; equivalently, keep
an entry iff its provider is `i` or its token is falsy. -/
def siStrip (i : String) (m : SocialMap) : SocialMap :=
  m.filter (fun p => p.1 = i || p.2 = "")

/-- The fields of `user.data` read or written by the lifecycle:
`_id`, `username`, `password`, `_kmd.authtoken` and `_socialIdentity`.
`none` models an absent (`undefined`) attribute; for `socialIdentity`,
`some []` models a present but empty `_socialIdentity` object (truthy
in JS), `none` an absent one (falsy). -/
structure UserData where
  id : Option String := none
  username : Option String := none
  password : Option String := none
  authtoken : Option String := none
  socialIdentity : Option SocialMap := none
  deriving DecidableEq

/-- The record passed to `client.setActiveSocialIdentity` by `connect`:
provider name, the token read back from `this._socialIdentity[identity]`,
and the redirect/client metadata from the options. -/
structure ActiveSocial where
  identity : String
  token : Option String := none
  redirectUri : Option String := none
  clientMeta : Option String := none
  deriving DecidableEq

/-- Modelled from the spec: the client context's session store. The
source's `Client` (with `getActiveUserData` / `setActiveUserData` /
`getActiveSocialIdentity` / `setActiveSocialIdentity`) is not among the
provided source files; spec section 4.1 describes it as a per-context
holder of at most one active session, with atomic overwrite `setActive`
and a clearing `setActive(null)`, plus the active social-identity
pointer used by `connect`/`disconnect`. -/
structure Client where
  activeUserData : Option UserData := none
  activeSocialIdentity : Option ActiveSocial := none
  deriving DecidableEq

/-- A user: its data record plus the client context it operates on. -/
structure User where
  data : UserData
  client : Client
  deriving DecidableEq

/-- The errors distinguished by the lifecycle: `ActiveUserError`,
`KinveyError` (also used for invalid credentials and a missing `_id`),
`NotFoundError` (specially caught by `connect`), and a generic
network/transport failure. -/
inductive KError where
  | activeUser (msg : String)
  | kinvey (msg : String)
  | notFound
  | network (msg : String)
  deriving DecidableEq

/-- One transport call: the request kind and the payload it carries. -/
inductive Call where
  | loginReq (payload : UserData)
  | signupReq (payload : UserData)
  | updateReq (payload : UserData)
  | logoutReq
  | meReq
  deriving DecidableEq

/-- The transport oracle: the outcome the network (or the datastore
`save`) would produce for each request. Operations record the calls
they actually issue in a trace list. -/
abbrev Oracle := Call → Except KError UserData

/-- `User.getActiveUser(client)`: wraps `client.getActiveUserData()`;
returns the stored active-session data or null. -/
def User.getActiveUser (c : Client) : Option UserData :=
  c.activeUserData

/-- `setAsActiveUser` / `User.setActiveUser(this, client)`: store this
user's data as the context's active session and re-read it. -/
def User.setAsActiveUser (u : User) : User :=
  { u with client := { u.client with activeUserData := some u.data } }

/-- `User.isActive()`: true iff a stored active session exists and its
`_id` strictly equals this user's `_id` (both possibly `undefined`). -/
def User.isActive (u : User) : Bool :=
  match User.getActiveUser u.client with
  | some d => d.id == u.data.id
  | none => false

/-- JS `String.prototype.trim`: drop the surrounding whitespace
characters (written over the character list so that it is
kernel-computable). -/
def jsTrim (s : String) : String :=
  ⟨((s.data.dropWhile Char.isWhitespace).reverse.dropWhile Char.isWhitespace).reverse⟩

/-- The guarded trim in `User.login`: a truthy username/password is
replaced by its whitespace-trimmed form, a falsy one is left as is. -/
def trimField : Option String → Option String
  | none => none
  | some s => if s = "" then some s else some (jsTrim s)

/-- Message of the `ActiveUserError` thrown by `login` and `signup` when
another active session exists. -/
def activeExistsMsg : String :=
  "An active user already exists. Please logout the active user before you login."

/-- Message of the `KinveyError` thrown by `login` on missing
credentials. -/
def invalidCredentialsMsg : String :=
  "Username and/or password missing. Please provide both a username and password to login."

/-- `User.login(usernameOrData)`: trim username/password unless the
credential object carries a `_socialIdentity` attribute; reject with
`ActiveUserError` if this user is active or any active user exists;
reject with `KinveyError` if neither a truthy username/password pair nor
a `_socialIdentity` attribute is supplied (the source's
`!x || x === ''` test is exactly falsiness of the optional string);
otherwise POST the credentials, overwrite `this.data` with the response
and promote this user to active. Returns the error if any, the user in
its final state, and the transport calls issued. -/
def User.login (u : User) (credIn : UserData) (tr : Oracle) :
    Option KError × User × List Call :=
  let cred :=
    if credIn.socialIdentity.isSome then credIn
    else { credIn with username := trimField credIn.username,
                       password := trimField credIn.password }
  if u.isActive then
    (some (KError.activeUser "This user is already the active user."), u, [])
  else if (User.getActiveUser u.client).isSome then
    (some (KError.activeUser activeExistsMsg), u, [])
  else if (!truthy cred.username || !truthy cred.password)
      && cred.socialIdentity.isNone then
    (some (KError.kinvey invalidCredentialsMsg), u, [])
  else
    match tr (Call.loginReq cred) with
    | .error e => (some e, u, [Call.loginReq cred])
    | .ok d => (none, User.setAsActiveUser { u with data := d }, [Call.loginReq cred])

/-- `User.signup(data, options)` with `state := options.state` (default
true): when promoting, reject with `ActiveUserError` if an active user
exists; otherwise POST the data, overwrite `this.data` with the
response, and promote to active iff `state`. -/
def User.signup (u : User) (d : UserData) (state : Bool) (tr : Oracle) :
    Option KError × User × List Call :=
  if state && (User.getActiveUser u.client).isSome then
    (some (KError.activeUser activeExistsMsg), u, [])
  else
    match tr (Call.signupReq d) with
    | .error e => (some e, u, [Call.signupReq d])
    | .ok rd =>
        let u' : User := { u with data := rd }
        if state then (none, u'.setAsActiveUser, [Call.signupReq d])
        else (none, u', [Call.signupReq d])

/-- A payload with its `_socialIdentity` map stripped to the scoped
identity `i` (absent map stays absent). -/
def strippedPayload (d : UserData) (i : String) : UserData :=
  { d with socialIdentity := d.socialIdentity.map (siStrip i) }

/-- `UserStore.save(user, options)`: reject with `KinveyError` when the
payload has no truthy `_id`; when `options._identity` is set, strip the
payload's `_socialIdentity` with `siStrip` (the source deletes the
entries in place on the caller's object); then issue the update request.
Returns the outcome, the calls issued, and the payload object in its
final (possibly stripped) state. -/
def UserStore.save (payload : UserData) (identOpt : Option String) (tr : Oracle) :
    Except KError UserData × List Call × UserData :=
  if !truthy payload.id then
    (.error (KError.kinvey "User must have an _id."), [], payload)
  else
    let stripped :=
      match identOpt with
      | some i => strippedPayload payload i
      | none => payload
    match tr (Call.updateReq stripped) with
    | .error e => (.error e, [Call.updateReq stripped], stripped)
    | .ok d => (.ok d, [Call.updateReq stripped], stripped)

/-- `User.update(data, options)`: save through the user store; on
success overwrite `this.data` with the response and re-promote to
active when still active. Both call sites (`connect`, `disconnect`)
pass `this.data` itself as the payload, so on failure the user's data
is the payload in its final in-place state. -/
def User.update (u : User) (d : UserData) (identOpt : Option String) (tr : Oracle) :
    Option KError × User × List Call :=
  match UserStore.save d identOpt tr with
  | (.error e, calls, dFinal) => (some e, { u with data := dFinal }, calls)
  | (.ok rd, calls, _) =>
      let u' : User := { u with data := rd }
      if u'.isActive then (none, u'.setAsActiveUser, calls) else (none, u', calls)

/-- The eager merge at the top of `User.connect`:
`socialIdentity[identity] = token` on `this.data` (a missing
`_socialIdentity` becomes `{}` first). -/
def mergeConnect (d : UserData) (identity token : String) : UserData :=
  { d with
      socialIdentity := some (siInsert (d.socialIdentity.getD []) identity token) }

/-- The final step of a successful `connect`:
`client.setActiveSocialIdentity({identity, token: this._socialIdentity[identity], redirectUri, client})`. -/
def connectPointer (u : User) (identity : String)
    (redirectUri clientMeta : Option String) : User :=
  { u with client := { u.client with
      activeSocialIdentity := some { identity := identity,
                                     token := (u.data.socialIdentity.getD []).lookup identity,
                                     redirectUri := redirectUri,
                                     clientMeta := clientMeta } } }

/-- `User.connect(identity, token, options)`: eagerly merge the token
into `this.data._socialIdentity`; if active, update scoped to that one
identity (`options._identity`), else login with the merged data; on a
`NotFoundError`, signup with the same merged data (default promoting
state) and retry `connect` once per missing-record condition; any other
failure propagates. On final success record the provider as the
context's active social identity. The source recursion is unbounded in
principle; the `fuel` argument is the recursion budget of the model,
and exhausting it yields a designated error. -/
def User.connect : Nat → User → String → String → Option String → Option String →
    Oracle → Option KError × User × List Call
  | 0, u, _, _, _, _, _ =>
      (some (KError.kinvey "connect recursion budget exhausted"), u, [])
  | fuel + 1, u0, identity, token, redirectUri, clientMeta, tr =>
      let data := mergeConnect u0.data identity token
      let u : User := { u0 with data := data }
      let step :=
        if u.isActive then u.update data (some identity) tr
        else u.login data tr
      if step.1 = some KError.notFound then
        let s2 := (step.2.1).signup data true tr
        match s2.1 with
        | some e => (some e, s2.2.1, step.2.2 ++ s2.2.2)
        | none =>
            let s3 := User.connect fuel s2.2.1 identity token redirectUri clientMeta tr
            match s3.1 with
            | some e => (some e, s3.2.1, step.2.2 ++ s2.2.2 ++ s3.2.2)
            | none =>
                (none, connectPointer s3.2.1 identity redirectUri clientMeta,
                 step.2.2 ++ s2.2.2 ++ s3.2.2)
      else
        match step.1 with
        | some e => (some e, step.2.1, step.2.2)
        | none => (none, connectPointer step.2.1 identity redirectUri clientMeta, step.2.2)

/-- The eager delete at the top of `User.disconnect`:
`delete socialIdentity[identity]` on `this.data` (a missing
`_socialIdentity` becomes `{}` first). -/
def eraseDisconnect (d : UserData) (identity : String) : UserData :=
  { d with
      socialIdentity := some (siErase (d.socialIdentity.getD []) identity) }

/-- `User.disconnect(identity)`: eagerly delete the provider's entry
from `this.data._socialIdentity`; when this user has a truthy persisted
`_id`, persist through an update (unscoped: `disconnect` sets no
`_identity` flag); then, on success, clear the context's active
social-identity pointer iff it names the removed provider (pointer
handling follows the spec-modelled client store: the source reads
`getActiveSocialIdentity().identity` without a null guard). -/
def User.disconnect (u0 : User) (identity : String) (tr : Oracle) :
    Option KError × User × List Call :=
  let data := eraseDisconnect u0.data identity
  let u : User := { u0 with data := data }
  let step :=
    if !truthy u.data.id then (none, u, [])
    else u.update data none tr
  match step.1 with
  | some e => (some e, step.2.1, step.2.2)
  | none =>
      let u1 := step.2.1
      let u2 :=
        match u1.client.activeSocialIdentity with
        | some asi =>
            if asi.identity = identity then
              { u1 with client := { u1.client with activeSocialIdentity := none } }
            else u1
        | none => u1
      (none, u2, step.2.2)

/-- `User.logout()`: return null immediately (no transport) when not
active; otherwise issue the logout request, swallow any transport
error, re-check active status, clear the active session if still this
one, and return this user. -/
def User.logout (u : User) (tr : Oracle) : Option User × List Call :=
  if !u.isActive then (none, [])
  else
    let _resp := tr Call.logoutReq
    let u1 :=
      if u.isActive then
        { u with client := { u.client with activeUserData := none } }
      else u
    (some u1, [Call.logoutReq])

/-- `User.me()`: GET the canonical record, overwrite `this.data`; when
the refreshed record has no truthy auth token, copy the previously
active user's `authtoken` (possibly absent) into this one; always
promote the result to active. -/
def User.me (u : User) (tr : Oracle) : Option KError × User × List Call :=
  match tr Call.meReq with
  | .error e => (some e, u, [Call.meReq])
  | .ok d =>
      let u1 : User := { u with data := d }
      let u2 :=
        if !truthy u1.data.authtoken then
          match User.getActiveUser u1.client with
          | some au => { u1 with data := { u1.data with authtoken := au.authtoken } }
          | none => u1
        else u1
      (none, u2.setAsActiveUser, [Call.meReq])

/-! Concrete fixtures used by witnesses and counterexamples. -/

def dA : UserData := { id := some "a", authtoken := some "T1" }

def ctxA : Client := { activeUserData := some dA }

def uA : User := ⟨dA, ctxA⟩

def uFresh : User := ⟨{}, {}⟩

def dSrv : UserData := { id := some "s1", authtoken := some "TS" }

def oracleNotFound : Oracle := fun _ => Except.error KError.notFound

def oracleOk : Oracle := fun _ => Except.ok dSrv

def oracleRecover : Oracle := fun c =>
  match c with
  | Call.loginReq _ => Except.error KError.notFound
  | _ => Except.ok dSrv

def oracleTimeout : Oracle := fun _ => Except.error (KError.network "timeout")

/-! Helper lemmas shared by the claim theorems. -/

theorem isActive_iff (u : User) :
    u.isActive = true ↔ ∃ d, u.client.activeUserData = some d ∧ d.id = u.data.id := by
  unfold User.isActive User.getActiveUser
  cases h : u.client.activeUserData with
  | none => simp
  | some d => simp [beq_iff_eq]

theorem isActive_false_of_none (u : User) (h : u.client.activeUserData = none) :
    u.isActive = false := by
  unfold User.isActive User.getActiveUser
  rw [h]

/-- C10: `isActive()` returns true exactly when the stored active
session exists and its id attribute equals this session's id attribute;
membership is by id value, so any two session objects sharing the
active id are both reported active, and a freshly constructed session
(undefined id) is reported active whenever the stored record itself
lacks an id. -/
theorem isActive_id_based :
    (∀ u : User, u.isActive = true ↔
        ∃ d, u.client.activeUserData = some d ∧ d.id = u.data.id) ∧
    (∀ (c : Client) (d x y : UserData), c.activeUserData = some d →
        x.id = d.id → y.id = d.id →
        (User.mk x c).isActive = true ∧ (User.mk y c).isActive = true) ∧
    (∀ (c : Client) (d : UserData), c.activeUserData = some d → d.id = none →
        (User.mk {} c).isActive = true) := by
  refine ⟨isActive_iff, ?_, ?_⟩
  · intro c d x y hc hx hy
    exact ⟨(isActive_iff ⟨x, c⟩).2 ⟨d, hc, hx.symm⟩,
           (isActive_iff ⟨y, c⟩).2 ⟨d, hc, hy.symm⟩⟩
  · intro c d hc hd
    exact (isActive_iff ⟨{}, c⟩).2 ⟨d, hc, hd⟩

theorem isActive_id_based_witness :
    ((uA.isActive = true ↔
        ∃ d, uA.client.activeUserData = some d ∧ d.id = uA.data.id) ∧
      uA.isActive = true) ∧
    ((User.mk dA ctxA).isActive = true ∧
      (User.mk { id := some "a" } ctxA).isActive = true) ∧
    (User.mk {} { activeUserData := some {} }).isActive = true := by
  refine ⟨⟨isActive_id_based.1 uA, ?_⟩,
          isActive_id_based.2.1 ctxA dA dA { id := some "a" } rfl rfl rfl,
          isActive_id_based.2.2 { activeUserData := some {} } {} rfl rfl⟩
  exact (isActive_id_based.1 uA).2 ⟨dA, rfl, rfl⟩

/-- C4: `logout()` on a session that is not active returns null with no
transport call; on the active session it issues the logout request and,
whatever the transport outcome, clears the context's active session and
returns this session object (same data, active pointer cleared). -/
theorem logout_spec (u : User) (tr : Oracle) :
    (u.isActive = false → u.logout tr = (none, [])) ∧
    (u.isActive = true →
      (u.logout tr).2 = [Call.logoutReq] ∧
      ∃ u', (u.logout tr).1 = some u' ∧ u'.data = u.data ∧
        u'.client.activeUserData = none) := by
  constructor
  · intro h; simp [User.logout, h]
  · intro h
    refine ⟨by simp [User.logout, h],
      { u with client := { u.client with activeUserData := none } },
      by simp [User.logout, h], rfl, rfl⟩

theorem logout_spec_witness :
    (uFresh.logout oracleTimeout = (none, []) ∧
      uFresh.isActive = false) ∧
    ((uA.logout oracleTimeout).2 = [Call.logoutReq] ∧
      ∃ u', (uA.logout oracleTimeout).1 = some u' ∧ u'.data = uA.data ∧
        u'.client.activeUserData = none) := by
  refine ⟨⟨(logout_spec uFresh oracleTimeout).1 rfl, rfl⟩,
          (logout_spec uA oracleTimeout).2 rfl⟩

/-- C5: `me()` overwrites the session's local data with the server
record; when that record carries no (truthy) auth token, the
previously-active session's auth token is carried forward; in all cases
the resulting session is promoted to active. -/
theorem me_refresh_spec (u : User) (tr : Oracle) (d : UserData)
    (h : tr Call.meReq = Except.ok d) :
    (u.me tr).1 = none ∧ (u.me tr).2.2 = [Call.meReq] ∧
    (truthy d.authtoken = true → (u.me tr).2.1.data = d) ∧
    (∀ a, truthy d.authtoken = false → u.client.activeUserData = some a →
      (u.me tr).2.1.data = { d with authtoken := a.authtoken }) ∧
    (u.me tr).2.1.client.activeUserData = some (u.me tr).2.1.data := by
  unfold User.me
  rw [h]
  refine ⟨rfl, rfl, ?_, ?_, ?_⟩
  · intro ht; simp [ht, User.setAsActiveUser]
  · intro a hf ha; simp [hf, ha, User.getActiveUser, User.setAsActiveUser]
  · simp only [User.setAsActiveUser]

theorem me_refresh_spec_witness :
    (uA.me oracleRecover).1 = none ∧
    (uA.me oracleRecover).2.2 = [Call.meReq] ∧
    (uA.me oracleRecover).2.1.data = dSrv ∧
    (uA.me oracleRecover).2.1.client.activeUserData =
      some (uA.me oracleRecover).2.1.data := by
  have h := me_refresh_spec uA oracleRecover dSrv rfl
  exact ⟨h.1, h.2.1, h.2.2.1 rfl, h.2.2.2.2⟩

/-- Helper: whenever the context holds any active session, `login`
rejects with an `ActiveUserError` before any transport call. -/
theorem login_conflict_aux (u : User) (cred : UserData) (tr : Oracle)
    (d : UserData) (h : u.client.activeUserData = some d) :
    (∃ msg, (u.login cred tr).1 = some (KError.activeUser msg)) ∧
      (u.login cred tr).2.2 = [] := by
  unfold User.login
  by_cases hb : u.isActive
  · simp [hb]
  · have : (User.getActiveUser u.client).isSome = true := by
      simp [User.getActiveUser, h]
    simp [hb, this]

/-- C7: when the credential payload carries no `_socialIdentity`
attribute, the username and password transmitted to the transport are
the whitespace-trimmed forms; a payload carrying a social-identity map
is transmitted untouched. -/
theorem login_trim_spec (u : User) (cred : UserData) (tr : Oracle)
    (hact : u.client.activeUserData = none) :
    (cred.socialIdentity = none →
      truthy (trimField cred.username) = true →
      truthy (trimField cred.password) = true →
      (u.login cred tr).2.2 =
        [Call.loginReq { cred with username := trimField cred.username,
                                   password := trimField cred.password }]) ∧
    (∀ m, cred.socialIdentity = some m →
      (u.login cred tr).2.2 = [Call.loginReq cred]) := by
  have hb : u.isActive = false := isActive_false_of_none u hact
  constructor
  · intro hsi hu hp
    unfold User.login
    rw [hsi]
    simp only [Option.isSome_none, Bool.false_eq_true, if_false]
    rw [hb]
    simp only [Bool.false_eq_true, if_false, User.getActiveUser, hact,
      Option.isSome_none, hu, hp, Bool.not_true, Bool.false_or, Bool.or_self,
      Bool.false_and, hsi]
    split <;> rfl
  · intro m hm
    unfold User.login
    rw [hm]
    simp only [Option.isSome_some, if_true]
    rw [hb]
    simp only [Bool.false_eq_true, if_false, User.getActiveUser, hact,
      Option.isSome_none, hm, Option.isNone_some, Bool.and_false]
    split <;> rfl

theorem login_trim_spec_witness :
    (uFresh.login { username := some " bob ", password := some " pw " } oracleOk).2.2 =
      [Call.loginReq { username := some "bob", password := some "pw" }] ∧
    (uFresh.login { socialIdentity := some [("facebook", "ft")] } oracleOk).2.2 =
      [Call.loginReq { socialIdentity := some [("facebook", "ft")] }] := by
  constructor
  · have h := (login_trim_spec uFresh
      { username := some " bob ", password := some " pw " } oracleOk rfl).1
      rfl (by decide) (by decide)
    simpa using h
  · exact (login_trim_spec uFresh
      { socialIdentity := some [("facebook", "ft")] } oracleOk rfl).2
      [("facebook", "ft")] rfl

/-- Helper: with no active session in the context and a successful
transport response, a promoting `signup` stores the response data and
promotes it to active, issuing exactly the one signup call. -/
theorem signup_ok (u : User) (d rd : UserData) (tr : Oracle)
    (hact : u.client.activeUserData = none)
    (htr : tr (Call.signupReq d) = Except.ok rd) :
    u.signup d true tr =
      (none, User.setAsActiveUser { u with data := rd }, [Call.signupReq d]) := by
  unfold User.signup
  rw [htr]
  simp [User.getActiveUser, hact]

/-- C1: with any active session in the context, `login` rejects with an
`ActiveUserError` (whether this session or another is the active one)
and `signup` with promoting state rejects likewise; consequently a
successful promoting `signup` makes an immediately following `login` on
the resulting context fail with an `ActiveUserError`. -/
theorem active_session_conflict_spec :
    (∀ (u : User) (cred : UserData) (tr : Oracle) (d : UserData),
      u.client.activeUserData = some d →
      (∃ msg, (u.login cred tr).1 = some (KError.activeUser msg)) ∧
        (u.login cred tr).2.2 = []) ∧
    (∀ (u : User) (dat : UserData) (tr : Oracle) (d : UserData),
      u.client.activeUserData = some d →
      (u.signup dat true tr).1 = some (KError.activeUser activeExistsMsg) ∧
        (u.signup dat true tr).2.2 = []) ∧
    (∀ (u : User) (dat rd cred : UserData) (tr : Oracle),
      u.client.activeUserData = none →
      tr (Call.signupReq dat) = Except.ok rd →
      (u.signup dat true tr).1 = none ∧
        ∃ msg, (((u.signup dat true tr).2.1).login cred tr).1 =
          some (KError.activeUser msg)) := by
  refine ⟨fun u cred tr d h => login_conflict_aux u cred tr d h, ?_, ?_⟩
  · intro u dat tr d h
    unfold User.signup
    simp [User.getActiveUser, h]
  · intro u dat rd cred tr hact htr
    rw [signup_ok u dat rd tr hact htr]
    exact ⟨rfl, (login_conflict_aux _ cred tr rd rfl).1⟩

theorem active_session_conflict_witness :
    ((∃ msg, (uA.login dA oracleOk).1 = some (KError.activeUser msg)) ∧
      (uA.login dA oracleOk).2.2 = []) ∧
    ((uA.signup dA true oracleOk).1 = some (KError.activeUser activeExistsMsg) ∧
      (uA.signup dA true oracleOk).2.2 = []) ∧
    ((uFresh.signup dA true oracleOk).1 = none ∧
      ∃ msg, (((uFresh.signup dA true oracleOk).2.1).login dA oracleOk).1 =
        some (KError.activeUser msg)) := by
  exact ⟨active_session_conflict_spec.1 uA dA oracleOk dA rfl,
         active_session_conflict_spec.2.1 uA dA oracleOk dA rfl,
         active_session_conflict_spec.2.2 uFresh dA dSrv dA oracleOk rfl rfl⟩

/-- C3 counterexample: on a context that already holds an active
session, a credentials object lacking both username/password and a
social-identity map is rejected with an `ActiveUserError`, not with the
invalid-credentials `KinveyError` the claim requires (the transport is
still never invoked). -/
theorem login_invalid_cred_counterexample :
    truthy (trimField ({} : UserData).username) = false ∧
    ({} : UserData).socialIdentity = none ∧
    (User.login ⟨{}, ctxA⟩ {} oracleNotFound).1 =
      some (KError.activeUser activeExistsMsg) ∧
    (User.login ⟨{}, ctxA⟩ {} oracleNotFound).1 ≠
      some (KError.kinvey invalidCredentialsMsg) ∧
    (User.login ⟨{}, ctxA⟩ {} oracleNotFound).2.2 = [] := by
  refine ⟨rfl, rfl, ?_, ?_, ?_⟩ <;> decide

/-- C3 amended: a credentials input lacking both a truthy (after
trimming) username-and-password pair and a `_socialIdentity` attribute
never reaches the transport; it fails with the invalid-credentials
`KinveyError` when the context holds no active session, and with an
`ActiveUserError` when one exists. -/
theorem login_invalid_cred_amended (u : User) (cred : UserData) (tr : Oracle)
    (hsi : cred.socialIdentity = none)
    (hcred : truthy (trimField cred.username) = false ∨
      truthy (trimField cred.password) = false) :
    (u.login cred tr).2.2 = [] ∧
    (u.client.activeUserData = none →
      (u.login cred tr).1 = some (KError.kinvey invalidCredentialsMsg)) ∧
    (∀ d, u.client.activeUserData = some d →
      ∃ msg, (u.login cred tr).1 = some (KError.activeUser msg)) := by
  have hv : ((!truthy (trimField cred.username) ||
      !truthy (trimField cred.password)) : Bool) = true := by
    rcases hcred with h | h <;> simp [h]
  refine ⟨?_, ?_, fun d hd => (login_conflict_aux u cred tr d hd).1⟩
  · cases hact : u.client.activeUserData with
    | some d => exact (login_conflict_aux u cred tr d hact).2
    | none =>
        have hb : u.isActive = false := isActive_false_of_none u hact
        unfold User.login
        rw [hsi]
        simp [hb, User.getActiveUser, hact, hv, hsi]
  · intro hact
    have hb : u.isActive = false := isActive_false_of_none u hact
    unfold User.login
    rw [hsi]
    simp [hb, User.getActiveUser, hact, hv, hsi]

theorem login_invalid_cred_amended_witness :
    (uFresh.login { username := some "   " } oracleOk).2.2 = [] ∧
    (uFresh.login { username := some "   " } oracleOk).1 =
      some (KError.kinvey invalidCredentialsMsg) ∧
    ∃ msg, (User.login ⟨{}, ctxA⟩ { username := some "   " } oracleOk).1 =
      some (KError.activeUser msg) := by
  have h1 := login_invalid_cred_amended uFresh { username := some "   " }
    oracleOk rfl (Or.inr rfl)
  have h2 := login_invalid_cred_amended ⟨{}, ctxA⟩ { username := some "   " }
    oracleOk rfl (Or.inr rfl)
  exact ⟨h1.1, h1.2.1 rfl, h2.2.2 dA rfl⟩

/-- Marks the signup requests within a transport trace. -/
def isSignupCall : Call → Bool
  | Call.signupReq _ => true
  | _ => false

/-- Number of signup requests issued within a transport trace. -/
def countSignups (l : List Call) : Nat :=
  (l.filter isSignupCall).length

/-- Helper: a social-identity credential login that reaches a failing
transport propagates the error and leaves the user unchanged. -/
theorem login_err_social (u : User) (cred : UserData) (tr : Oracle)
    (m : SocialMap) (e : KError) (hact : u.client.activeUserData = none)
    (hsi : cred.socialIdentity = some m)
    (htr : tr (Call.loginReq cred) = Except.error e) :
    u.login cred tr = (some e, u, [Call.loginReq cred]) := by
  have hb : u.isActive = false := isActive_false_of_none u hact
  unfold User.login
  rw [hsi]
  simp only [Option.isSome_some, if_true]
  rw [hb, htr]
  simp [User.getActiveUser, hact, hsi]

/-- Helper: a social-identity credential login with a successful
transport stores the response and promotes it to active. -/
theorem login_ok_social (u : User) (cred : UserData) (tr : Oracle)
    (m : SocialMap) (d : UserData) (hact : u.client.activeUserData = none)
    (hsi : cred.socialIdentity = some m)
    (htr : tr (Call.loginReq cred) = Except.ok d) :
    u.login cred tr =
      (none, User.setAsActiveUser (User.mk d u.client), [Call.loginReq cred]) := by
  have hb : u.isActive = false := isActive_false_of_none u hact
  unfold User.login
  rw [hsi]
  simp only [Option.isSome_some, if_true]
  rw [hb, htr]
  simp [User.getActiveUser, hact, hsi]

/-- Helper: a scoped update (`options._identity = i`) on a payload with
a truthy id and a successful transport: the request carries the
stripped payload and the response is stored (re-promoting when still
active). -/
theorem update_ok_scoped (u : User) (d rd : UserData) (i : String) (tr : Oracle)
    (hid : truthy d.id = true)
    (htr : tr (Call.updateReq (strippedPayload d i)) = Except.ok rd) :
    u.update d (some i) tr =
      (none,
       if (User.mk rd u.client).isActive then (User.mk rd u.client).setAsActiveUser
       else User.mk rd u.client,
       [Call.updateReq (strippedPayload d i)]) := by
  simp only [User.update, UserStore.save, hid, htr, Bool.not_true,
    Bool.false_eq_true, if_false]
  split <;> rfl

/-- Helper: a scoped update whose transport fails leaves the error and
the in-place stripped payload. -/
theorem update_err_scoped (u : User) (d : UserData) (i : String) (e : KError)
    (tr : Oracle) (hid : truthy d.id = true)
    (htr : tr (Call.updateReq (strippedPayload d i)) = Except.error e) :
    u.update d (some i) tr =
      (some e, User.mk (strippedPayload d i) u.client,
       [Call.updateReq (strippedPayload d i)]) := by
  simp only [User.update, UserStore.save, hid, htr, Bool.not_true,
    Bool.false_eq_true, if_false]

/-- Helper: an unscoped update (no `_identity` flag) with a truthy id
and a successful transport. -/
theorem update_ok_plain (u : User) (d rd : UserData) (tr : Oracle)
    (hid : truthy d.id = true)
    (htr : tr (Call.updateReq d) = Except.ok rd) :
    u.update d none tr =
      (none,
       if (User.mk rd u.client).isActive then (User.mk rd u.client).setAsActiveUser
       else User.mk rd u.client,
       [Call.updateReq d]) := by
  simp only [User.update, UserStore.save, hid, htr, Bool.not_true,
    Bool.false_eq_true, if_false]
  split <;> rfl

/-- Helper: an unscoped update whose transport fails. -/
theorem update_err_plain (u : User) (d : UserData) (e : KError) (tr : Oracle)
    (hid : truthy d.id = true)
    (htr : tr (Call.updateReq d) = Except.error e) :
    u.update d none tr =
      (some e, User.mk d u.client, [Call.updateReq d]) := by
  simp only [User.update, UserStore.save, hid, htr, Bool.not_true,
    Bool.false_eq_true, if_false]

/-- Helper: `connect` on an active session with a truthy id and a
successful transport performs exactly the one scoped update and then
records the active social identity. -/
theorem connect_update_aux (n : Nat) (u : User) (identity token : String)
    (r c : Option String) (tr : Oracle) (d2 : UserData)
    (hact : u.isActive = true) (hid : truthy u.data.id = true)
    (htr : tr (Call.updateReq
        (strippedPayload (mergeConnect u.data identity token) identity)) =
      Except.ok d2) :
    User.connect (n + 1) u identity token r c tr =
      (none,
       connectPointer
         (if (User.mk d2 u.client).isActive then (User.mk d2 u.client).setAsActiveUser
          else User.mk d2 u.client) identity r c,
       [Call.updateReq
          (strippedPayload (mergeConnect u.data identity token) identity)]) := by
  have hact1 : (User.mk (mergeConnect u.data identity token) u.client).isActive = true :=
    hact
  have hid1 : truthy (mergeConnect u.data identity token).id = true := hid
  have hupd := update_ok_scoped (User.mk (mergeConnect u.data identity token) u.client)
    (mergeConnect u.data identity token) d2 identity tr hid1 htr
  simp only [User.connect]
  rw [show ({ u with data := mergeConnect u.data identity token } : User) =
        User.mk (mergeConnect u.data identity token) u.client from rfl]
  rw [hact1]
  simp only [if_true, hupd]
  simp

/-- C6: `connect` on an active session issues exactly one update, and
its payload keeps the connected provider's entry and every entry with
an empty token while dropping every other entry that carries a
non-empty token. -/
theorem connect_scoped_update_spec (n : Nat) (u : User) (identity token : String)
    (r c : Option String) (tr : Oracle) (d2 : UserData)
    (hact : u.isActive = true) (hid : truthy u.data.id = true)
    (htr : tr (Call.updateReq
        (strippedPayload (mergeConnect u.data identity token) identity)) =
      Except.ok d2) :
    (User.connect (n + 1) u identity token r c tr).1 = none ∧
    (User.connect (n + 1) u identity token r c tr).2.2 =
      [Call.updateReq
        (strippedPayload (mergeConnect u.data identity token) identity)] ∧
    (∀ k v, (k, v) ∈
        ((strippedPayload (mergeConnect u.data identity token) identity).socialIdentity.getD []) ↔
      ((k, v) ∈ ((mergeConnect u.data identity token).socialIdentity.getD []) ∧
        (k = identity ∨ v = ""))) := by
  rw [connect_update_aux n u identity token r c tr d2 hact hid htr]
  refine ⟨rfl, rfl, ?_⟩
  intro k v
  simp [strippedPayload, mergeConnect, siStrip, List.mem_filter]

def dMulti : UserData :=
  { id := some "a", socialIdentity := some [("google", "gt"), ("empty", "")] }

def uMulti : User := ⟨dMulti, { activeUserData := some dMulti }⟩

theorem connect_scoped_update_witness :
    (User.connect 1 uMulti "facebook" "ft" none none oracleOk).1 = none ∧
    (User.connect 1 uMulti "facebook" "ft" none none oracleOk).2.2 =
      [Call.updateReq
        (strippedPayload (mergeConnect dMulti "facebook" "ft") "facebook")] ∧
    ("google", "gt") ∈ ((mergeConnect dMulti "facebook" "ft").socialIdentity.getD []) ∧
    ¬ ("google", "gt") ∈
      ((strippedPayload (mergeConnect dMulti "facebook" "ft") "facebook").socialIdentity.getD []) ∧
    ("facebook", "ft") ∈
      ((strippedPayload (mergeConnect dMulti "facebook" "ft") "facebook").socialIdentity.getD []) ∧
    ("empty", "") ∈
      ((strippedPayload (mergeConnect dMulti "facebook" "ft") "facebook").socialIdentity.getD []) := by
  have h := connect_scoped_update_spec 0 uMulti "facebook" "ft" none none oracleOk
    dSrv (by decide) (by decide) rfl
  refine ⟨h.1, h.2.1, by decide, ?_, by decide, by decide⟩
  intro hmem
  have h2 := (h.2.2 "google" "gt").1 hmem
  revert h2
  decide

/-- Helper: projections of a successful unscoped update: no error, the
single update call, and an untouched active social-identity pointer. -/
theorem update_ok_plain_proj (u : User) (d rd : UserData) (tr : Oracle)
    (hid : truthy d.id = true)
    (htr : tr (Call.updateReq d) = Except.ok rd) :
    (u.update d none tr).1 = none ∧
    (u.update d none tr).2.2 = [Call.updateReq d] ∧
    (u.update d none tr).2.1.client.activeSocialIdentity =
      u.client.activeSocialIdentity := by
  rw [update_ok_plain u d rd tr hid htr]
  refine ⟨rfl, rfl, ?_⟩
  split <;> rfl

/-- C8: `disconnect(identity)` removes exactly that provider's entry
(leaving all others untouched), issues a persisting update only when
the session has a truthy persisted id (succeeding locally with no
transport call otherwise), and clears the context's active
social-identity pointer iff it named the removed provider. -/
theorem disconnect_spec (u : User) (identity : String) (tr : Oracle) :
    (∀ k v, (k, v) ∈ ((eraseDisconnect u.data identity).socialIdentity.getD []) ↔
      ((k, v) ∈ (u.data.socialIdentity.getD []) ∧ k ≠ identity)) ∧
    (truthy u.data.id = false →
      (u.disconnect identity tr).1 = none ∧
      (u.disconnect identity tr).2.2 = [] ∧
      (u.disconnect identity tr).2.1.data = eraseDisconnect u.data identity) ∧
    (∀ rd, truthy u.data.id = true →
      tr (Call.updateReq (eraseDisconnect u.data identity)) = Except.ok rd →
      (u.disconnect identity tr).1 = none ∧
      (u.disconnect identity tr).2.2 =
        [Call.updateReq (eraseDisconnect u.data identity)]) ∧
    ((truthy u.data.id = false ∨
        (∃ rd, tr (Call.updateReq (eraseDisconnect u.data identity)) = Except.ok rd)) →
      (u.disconnect identity tr).2.1.client.activeSocialIdentity =
        (match u.client.activeSocialIdentity with
         | some a => if a.identity = identity then none else some a
         | none => none)) := by
  refine ⟨?_, ?_, ?_, ?_⟩
  · intro k v
    simp [eraseDisconnect, siErase, List.mem_filter]
  · intro hid
    unfold User.disconnect
    have hid' : truthy (eraseDisconnect u.data identity).id = false := hid
    simp only [hid', Bool.not_false, if_true]
    refine ⟨trivial, trivial, ?_⟩
    cases hasi : u.client.activeSocialIdentity with
    | none => rfl
    | some a => by_cases hmatch : a.identity = identity <;> simp [hmatch]
  · intro rd hid htr
    unfold User.disconnect
    have hid' : truthy (eraseDisconnect u.data identity).id = true := hid
    have hp := update_ok_plain_proj (User.mk (eraseDisconnect u.data identity) u.client)
      (eraseDisconnect u.data identity) rd tr hid' htr
    simp only [hid', Bool.not_true, Bool.false_eq_true, if_false]
    rw [hp.1]
    exact ⟨rfl, hp.2.1⟩
  · intro hsucc
    unfold User.disconnect
    by_cases hid : truthy u.data.id = true
    · have htr : ∃ rd, tr (Call.updateReq (eraseDisconnect u.data identity)) =
          Except.ok rd := by
        rcases hsucc with h | h
        · rw [hid] at h; exact absurd h (by simp)
        · exact h
      rcases htr with ⟨rd, htr⟩
      have hid' : truthy (eraseDisconnect u.data identity).id = true := hid
      have hp := update_ok_plain_proj (User.mk (eraseDisconnect u.data identity) u.client)
        (eraseDisconnect u.data identity) rd tr hid' htr
      simp only [hid', Bool.not_true, Bool.false_eq_true, if_false, hp.1]
      cases hasi : u.client.activeSocialIdentity with
      | none => simp [hasi, hp.2.2]
      | some a =>
          by_cases hmatch : a.identity = identity <;>
            simp [hasi, hmatch, hp.2.2]
    · have hid0 : truthy u.data.id = false := by simpa using hid
      have hid' : truthy (eraseDisconnect u.data identity).id = false := hid0
      simp only [hid', Bool.not_false, if_true]
      cases hasi : u.client.activeSocialIdentity with
      | none => simp [hasi]
      | some a =>
          by_cases hmatch : a.identity = identity <;> simp [hasi, hmatch]

def uD : User :=
  ⟨dMulti, { activeUserData := some dMulti,
             activeSocialIdentity := some { identity := "google" } }⟩

def uLocal : User := ⟨{ socialIdentity := some [("google", "gt")] }, {}⟩

theorem disconnect_spec_witness :
    (("google", "gt") ∈ (uD.data.socialIdentity.getD []) ∧
      ¬ ("google", "gt") ∈ ((eraseDisconnect uD.data "google").socialIdentity.getD []) ∧
      ("empty", "") ∈ ((eraseDisconnect uD.data "google").socialIdentity.getD [])) ∧
    ((uD.disconnect "google" oracleOk).1 = none ∧
      (uD.disconnect "google" oracleOk).2.2 =
        [Call.updateReq (eraseDisconnect uD.data "google")]) ∧
    (uD.disconnect "google" oracleOk).2.1.client.activeSocialIdentity = none ∧
    ((uLocal.disconnect "google" oracleNotFound).1 = none ∧
      (uLocal.disconnect "google" oracleNotFound).2.2 = [] ∧
      (uLocal.disconnect "google" oracleNotFound).2.1.data =
        eraseDisconnect uLocal.data "google") := by
  have hD := disconnect_spec uD "google" oracleOk
  have hL := disconnect_spec uLocal "google" oracleNotFound
  refine ⟨⟨by decide, ?_, by decide⟩, hD.2.2.1 dSrv (by decide) rfl, ?_, hL.2.1 (by decide)⟩
  · intro hmem
    have h2 := (hD.1 "google" "gt").1 hmem
    exact h2.2 rfl
  · have h4 := hD.2.2.2 (Or.inr ⟨dSrv, rfl⟩)
    rw [h4]
    decide

/-- One-step unfolding of `User.connect` at positive fuel (the source
method body); proved by `rfl` and used to unfold exactly one recursion
level at a time. -/
theorem connect_succ (fuel : Nat) (u0 : User) (identity token : String)
    (r c : Option String) (tr : Oracle) :
    User.connect (fuel + 1) u0 identity token r c tr =
      (let data := mergeConnect u0.data identity token
       let u : User := { u0 with data := data }
       let step :=
         if u.isActive then u.update data (some identity) tr
         else u.login data tr
       if step.1 = some KError.notFound then
         let s2 := (step.2.1).signup data true tr
         match s2.1 with
         | some e => (some e, s2.2.1, step.2.2 ++ s2.2.2)
         | none =>
             let s3 := User.connect fuel s2.2.1 identity token r c tr
             match s3.1 with
             | some e => (some e, s3.2.1, step.2.2 ++ s2.2.2 ++ s3.2.2)
             | none =>
                 (none, connectPointer s3.2.1 identity r c,
                  step.2.2 ++ s2.2.2 ++ s3.2.2)
       else
         match step.1 with
         | some e => (some e, step.2.1, step.2.2)
         | none => (none, connectPointer step.2.1 identity r c, step.2.2)) := rfl

/-- Helper: `connect` on an inactive context whose login attempt fails
with an error other than `NotFoundError` propagates it unchanged,
leaving the eagerly merged data and an untouched client. -/
theorem connect_login_err_aux (n : Nat) (u : User) (identity token : String)
    (r c : Option String) (tr : Oracle) (e : KError)
    (hact : u.client.activeUserData = none) (hne : e ≠ KError.notFound)
    (h1 : tr (Call.loginReq (mergeConnect u.data identity token)) = Except.error e) :
    User.connect (n + 1) u identity token r c tr =
      (some e, User.mk (mergeConnect u.data identity token) u.client,
       [Call.loginReq (mergeConnect u.data identity token)]) := by
  have hlog := login_err_social (User.mk (mergeConnect u.data identity token) u.client)
    (mergeConnect u.data identity token) tr
    (siInsert (u.data.socialIdentity.getD []) identity token) e hact rfl h1
  have hb : (User.mk (mergeConnect u.data identity token) u.client).isActive = false :=
    isActive_false_of_none _ hact
  rw [connect_succ]
  simp only [hb, Bool.false_eq_true, if_false, hlog]
  simp [hne]

/-- Helper: `connect` on an active session whose scoped update fails
with an error other than `NotFoundError` propagates it unchanged,
leaving the in-place stripped merged data and an untouched client. -/
theorem connect_update_err_aux (n : Nat) (u : User) (identity token : String)
    (r c : Option String) (tr : Oracle) (e : KError)
    (hact : u.isActive = true) (hid : truthy u.data.id = true)
    (hne : e ≠ KError.notFound)
    (htr : tr (Call.updateReq
        (strippedPayload (mergeConnect u.data identity token) identity)) =
      Except.error e) :
    User.connect (n + 1) u identity token r c tr =
      (some e,
       User.mk (strippedPayload (mergeConnect u.data identity token) identity) u.client,
       [Call.updateReq
          (strippedPayload (mergeConnect u.data identity token) identity)]) := by
  have hact1 : (User.mk (mergeConnect u.data identity token) u.client).isActive = true :=
    hact
  have hid1 : truthy (mergeConnect u.data identity token).id = true := hid
  have hupd := update_err_scoped (User.mk (mergeConnect u.data identity token) u.client)
    (mergeConnect u.data identity token) identity e tr hid1 htr
  rw [connect_succ]
  simp only [hact1, if_true, hupd]
  simp [hne]

/-- Helper: `disconnect` on a persisted id whose update transport fails
propagates the error, leaving the in-place erased data and an untouched
client. -/
theorem disconnect_err_aux (u : User) (identity : String) (tr : Oracle) (e : KError)
    (hid : truthy u.data.id = true)
    (htr : tr (Call.updateReq (eraseDisconnect u.data identity)) = Except.error e) :
    u.disconnect identity tr =
      (some e, User.mk (eraseDisconnect u.data identity) u.client,
       [Call.updateReq (eraseDisconnect u.data identity)]) := by
  have hid1 : truthy (eraseDisconnect u.data identity).id = true := hid
  have hupd := update_err_plain (User.mk (eraseDisconnect u.data identity) u.client)
    (eraseDisconnect u.data identity) e tr hid1 htr
  unfold User.disconnect
  simp only [hid1, Bool.not_true, Bool.false_eq_true, if_false, hupd]

/-- C2: when `connect` is not on an active session and its login attempt
fails with `NotFoundError`, the recovery performs exactly one signup
with the same merged data followed by exactly one retried transport
call (the scoped update of the retried `connect`) — never two signups;
and a login failure other than `NotFoundError` propagates to the caller
unchanged, with no signup at all. -/
theorem connect_retry_spec :
    (∀ (n : Nat) (u : User) (identity token : String) (r c : Option String)
       (tr : Oracle) (d1 d2 : UserData),
      u.client.activeUserData = none →
      tr (Call.loginReq (mergeConnect u.data identity token)) =
        Except.error KError.notFound →
      tr (Call.signupReq (mergeConnect u.data identity token)) = Except.ok d1 →
      truthy d1.id = true →
      tr (Call.updateReq (strippedPayload (mergeConnect d1 identity token) identity)) =
        Except.ok d2 →
      (User.connect (n + 2) u identity token r c tr).1 = none ∧
      (User.connect (n + 2) u identity token r c tr).2.2 =
        [Call.loginReq (mergeConnect u.data identity token),
         Call.signupReq (mergeConnect u.data identity token),
         Call.updateReq (strippedPayload (mergeConnect d1 identity token) identity)] ∧
      countSignups (User.connect (n + 2) u identity token r c tr).2.2 = 1) ∧
    (∀ (n : Nat) (u : User) (identity token : String) (r c : Option String)
       (tr : Oracle) (e : KError),
      u.client.activeUserData = none →
      e ≠ KError.notFound →
      tr (Call.loginReq (mergeConnect u.data identity token)) = Except.error e →
      User.connect (n + 1) u identity token r c tr =
        (some e, User.mk (mergeConnect u.data identity token) u.client,
         [Call.loginReq (mergeConnect u.data identity token)]) ∧
      countSignups (User.connect (n + 1) u identity token r c tr).2.2 = 0) := by
  constructor
  · intro n u identity token r c tr d1 d2 hact h1 h2 hid h3
    have hlog := login_err_social (User.mk (mergeConnect u.data identity token) u.client)
      (mergeConnect u.data identity token) tr
      (siInsert (u.data.socialIdentity.getD []) identity token) KError.notFound
      hact rfl h1
    have hsg := signup_ok (User.mk (mergeConnect u.data identity token) u.client)
      (mergeConnect u.data identity token) d1 tr hact h2
    rw [show ({ User.mk (mergeConnect u.data identity token) u.client
          with data := d1 } : User) = User.mk d1 u.client from rfl] at hsg
    have hactR : (User.setAsActiveUser (User.mk d1 u.client)).isActive = true := by
      simp [User.isActive, User.getActiveUser, User.setAsActiveUser]
    have hidR : truthy (User.setAsActiveUser (User.mk d1 u.client)).data.id = true := hid
    have hretry := connect_update_aux n
      (User.setAsActiveUser (User.mk d1 u.client)) identity token r c tr d2 hactR hidR h3
    have hb : (User.mk (mergeConnect u.data identity token) u.client).isActive = false :=
      isActive_false_of_none _ hact
    refine ⟨?_, ?_, ?_⟩ <;>
      (rw [show n + 2 = (n + 1) + 1 from rfl, connect_succ]
       simp only [hb, Bool.false_eq_true, if_false, hlog, hsg]
       rw [hretry]
       simp [User.setAsActiveUser, countSignups, isSignupCall])
  · intro n u identity token r c tr e hact hne h1
    have hmain := connect_login_err_aux n u identity token r c tr e hact hne h1
    refine ⟨hmain, ?_⟩
    rw [hmain]
    simp [countSignups, isSignupCall]

theorem connect_retry_witness :
    (User.connect 2 uFresh "facebook" "ft" none none oracleRecover).1 = none ∧
    countSignups (User.connect 2 uFresh "facebook" "ft" none none oracleRecover).2.2 = 1 ∧
    (User.connect 1 uFresh "facebook" "ft" none none oracleTimeout).1 =
      some (KError.network "timeout") ∧
    countSignups (User.connect 1 uFresh "facebook" "ft" none none oracleTimeout).2.2 = 0 := by
  have hA := connect_retry_spec.1 0 uFresh "facebook" "ft" none none oracleRecover
    dSrv dSrv rfl rfl rfl (by decide) rfl
  have hB := connect_retry_spec.2 0 uFresh "facebook" "ft" none none oracleTimeout
    (KError.network "timeout") rfl (by decide) rfl
  refine ⟨hA.1, hA.2.2, ?_, hB.2⟩
  rw [hB.1]

/-- C9 counterexample: `connect` on an active session merges the token
into the local data before any transport call, so when the update
request fails (a timeout), the session's local data differs from its
pre-operation value even though the operation reports the failure. -/
theorem state_on_failure_counterexample :
    (User.connect 2 uMulti "facebook" "ft" none none oracleTimeout).1 =
      some (KError.network "timeout") ∧
    (User.connect 2 uMulti "facebook" "ft" none none oracleTimeout).2.1.data ≠
      uMulti.data := by
  decide

/-- C9 amended: a failing transport call in `connect` or `disconnect`
commits nothing to the context — the stored active session and the
active social-identity pointer (the whole client) are unchanged — but
the session's in-memory data already reflects the eagerly applied
identity merge (for `connect`, stripped in place on the scoped-update
path) or identity removal (for `disconnect`) performed before the
transport call, so the operation's local data is not unchanged. -/
theorem state_on_failure_amended :
    (∀ (n : Nat) (u : User) (identity token : String) (r c : Option String)
       (tr : Oracle) (e : KError),
      u.client.activeUserData = none → e ≠ KError.notFound →
      tr (Call.loginReq (mergeConnect u.data identity token)) = Except.error e →
      User.connect (n + 1) u identity token r c tr =
        (some e, User.mk (mergeConnect u.data identity token) u.client,
         [Call.loginReq (mergeConnect u.data identity token)])) ∧
    (∀ (n : Nat) (u : User) (identity token : String) (r c : Option String)
       (tr : Oracle) (e : KError),
      u.isActive = true → truthy u.data.id = true → e ≠ KError.notFound →
      tr (Call.updateReq
          (strippedPayload (mergeConnect u.data identity token) identity)) =
        Except.error e →
      User.connect (n + 1) u identity token r c tr =
        (some e,
         User.mk (strippedPayload (mergeConnect u.data identity token) identity)
           u.client,
         [Call.updateReq
            (strippedPayload (mergeConnect u.data identity token) identity)])) ∧
    (∀ (u : User) (identity : String) (tr : Oracle) (e : KError),
      truthy u.data.id = true →
      tr (Call.updateReq (eraseDisconnect u.data identity)) = Except.error e →
      u.disconnect identity tr =
        (some e, User.mk (eraseDisconnect u.data identity) u.client,
         [Call.updateReq (eraseDisconnect u.data identity)])) := by
  refine ⟨?_, ?_, ?_⟩
  · intro n u identity token r c tr e hact hne h1
    exact connect_login_err_aux n u identity token r c tr e hact hne h1
  · intro n u identity token r c tr e hact hid hne htr
    exact connect_update_err_aux n u identity token r c tr e hact hid hne htr
  · intro u identity tr e hid htr
    exact disconnect_err_aux u identity tr e hid htr

theorem state_on_failure_amended_witness :
    User.connect 1 uFresh "facebook" "ft" none none oracleTimeout =
      (some (KError.network "timeout"),
       User.mk (mergeConnect uFresh.data "facebook" "ft") uFresh.client,
       [Call.loginReq (mergeConnect uFresh.data "facebook" "ft")]) ∧
    User.connect 1 uMulti "facebook" "ft" none none oracleTimeout =
      (some (KError.network "timeout"),
       User.mk (strippedPayload (mergeConnect uMulti.data "facebook" "ft") "facebook")
         uMulti.client,
       [Call.updateReq
          (strippedPayload (mergeConnect uMulti.data "facebook" "ft") "facebook")]) ∧
    uD.disconnect "google" oracleTimeout =
      (some (KError.network "timeout"),
       User.mk (eraseDisconnect uD.data "google") uD.client,
       [Call.updateReq (eraseDisconnect uD.data "google")]) := by
  exact ⟨state_on_failure_amended.1 0 uFresh "facebook" "ft" none none oracleTimeout
           (KError.network "timeout") rfl (by decide) rfl,
         state_on_failure_amended.2.1 0 uMulti "facebook" "ft" none none oracleTimeout
           (KError.network "timeout") (by decide) (by decide) (by decide) rfl,
         state_on_failure_amended.2.2 uD "google" oracleTimeout
           (KError.network "timeout") (by decide) rfl⟩

end KinveySdk
